import Mathlib

/-!
Shallow embedding of the image-captioning backend (project3_backend.py).

The service is a small Flask app. We embed its logic directly and
abstract the external collaborators (PIL image decoding, CLIP, GPT-2,
torch.rand, werkzeug secure_filename, the real file system) as explicit
oracle data threaded through the definitions:

* the ML pipeline inside generate_caption is a GenEnv: whether image
  decoding / feature extraction raises, what the GPT-2 decode returns
  for a given prompt string, and the torch.rand sample (a rational);
* secure_filename is an arbitrary function parameter sf;
* the upload directory is a list of currently existing file paths,
  updated by save / remove operations.

Fallible Python code (raise / try-except) is modelled with Except.
-/

namespace CaptionBackend

/-- ALLOWED_EXTENSIONS from the source configuration. -/
def ALLOWED_EXTENSIONS : List String := ["png", "jpg", "jpeg", "webp", "bmp"]

/-- UPLOAD_FOLDER from the source configuration. -/
def UPLOAD_FOLDER : String := "uploads"

/-- The style identifiers accepted by the /caption endpoint check
`style not in [creative, technical, simple]`. -/
def VALID_STYLES : List String := ["creative", "technical", "simple"]

/-- Model of the Python expression `s.endswith(suffixStr)`: the character
list of the suffix string is a suffix of the character list of s. -/
def pyEndsWith (s suffixStr : String) : Bool :=
  suffixStr.data.isSuffixOf s.data

/-- Model of `filename.rsplit('.', 1)[1]` when a dot is present: the
characters after the last dot. Python strings are sequences of code
points, modelled as the character list of a Lean string. -/
def extAfterLastDot (s : String) : String :=
  ⟨(s.data.reverse.takeWhile (fun c => c ≠ '.')).reverse⟩

/-- Model of Python `str.lower` on the character list. -/
def toLowerStr (s : String) : String :=
  ⟨s.data.map Char.toLower⟩

/-- allowed_file from the source:
`'.' in filename and filename.rsplit('.', 1)[1].lower() in ALLOWED_EXTENSIONS`. -/
def allowed_file (filename : String) : Bool :=
  filename.data.contains '.' &&
    ALLOWED_EXTENSIONS.contains (toLowerStr (extAfterLastDot filename))

/-- Oracle environment for one generate_caption call over one image file.
decodeImage covers Image.open / convert and the CLIP forward pass (any
raise there carries the underlying message); decodeText maps the GPT-2
prompt to either the decoded generation output or an error message; rand
is the torch.rand(1).item() sample. -/
structure GenEnv where
  decodeImage : Except String Unit
  decodeText : String → Except String String
  rand : ℚ

/-- style_prompts from generate_caption. -/
def style_prompts : List (String × String) :=
  [("creative", "A beautiful image showing"),
   ("technical", "This image contains:"),
   ("simple", "This is")]

/-- `style_prompts.get(style, style_prompts['creative'])`. -/
def promptFor (style : String) : String :=
  ((style_prompts.lookup style).getD ((style_prompts.lookup "creative").getD ""))

/-- Model of Python `str.strip` on the character list: drop whitespace
from both ends. -/
def pyStrip (s : String) : String :=
  ⟨((s.data.dropWhile Char.isWhitespace).reverse.dropWhile Char.isWhitespace).reverse⟩

/-- Caption post-processing in generate_caption: strip whitespace, then
append a terminating period when absent. -/
def clean_caption (raw : String) : String :=
  if pyEndsWith (pyStrip raw) "." then pyStrip raw else pyStrip raw ++ "."

/-- `confidence = min(0.85 + torch.rand(1).item() * 0.1, 0.95)`. -/
def confidenceOf (r : ℚ) : ℚ :=
  min (85/100 + r * (1/10)) (95/100)

/-- The pair returned by a successful generate_caption call. -/
structure GenResult where
  caption : String
  confidence : ℚ
  deriving Repr, DecidableEq

/-- generate_caption from the source. Any exception inside the try block
is re-raised as `Exception(f"Error generating caption: {str(e)}")`,
modelled as the error string with that exact prefix. -/
def generate_caption (env : GenEnv) (style : String) : Except String GenResult :=
  match env.decodeImage with
  | .error e => .error ("Error generating caption: " ++ e)
  | .ok _ =>
    match env.decodeText (promptFor style) with
    | .error e => .error ("Error generating caption: " ++ e)
    | .ok raw => .ok ⟨clean_caption raw, confidenceOf env.rand⟩

/-- Metadata read by `Image.open(filepath)` on the success path. -/
structure ImageInfo where
  width : Nat
  height : Nat
  format : Option String
  deriving Repr, DecidableEq

/-- One uploaded file: its client-supplied filename plus the oracle data
describing how the external pipeline behaves on its bytes. -/
structure UploadedFile where
  filename : String
  gen : GenEnv
  info : Except String ImageInfo

/-- `os.path.join(app.config['UPLOAD_FOLDER'], filename)`. -/
def joinPath (dir name : String) : String := dir ++ "/" ++ name

/-- `file.save(filepath)`: the path exists afterwards (overwriting is
idempotent on the set of existing paths). -/
def saveFile (fs : List String) (p : String) : List String :=
  if p ∈ fs then fs else p :: fs

/-- `if os.path.exists(filepath): os.remove(filepath)` from the batch
finally block. -/
def removeIfExists (fs : List String) (p : String) : List String :=
  if p ∈ fs then fs.erase p else fs

/-- Input to the /caption handler: the optional file part and the
optional style form field. -/
structure CaptionRequest where
  file : Option UploadedFile
  style : Option String

/-- JSON body shapes the /caption handler can return. -/
inductive CaptionBody where
  | clientError (msg : String)
  | serverError (msg : String)
  | ok (caption : String) (confidence : ℚ) (style : String) (info : ImageInfo)
  deriving Repr, DecidableEq

/-- Observable outcome of one /caption request: HTTP status, body, the
upload-directory contents afterwards, and whether a file.save or a
generate_caption call happened during handling. -/
structure CaptionOutcome where
  status : Nat
  body : CaptionBody
  fs : List String
  savedFile : Bool
  ranGeneration : Bool
  deriving Repr, DecidableEq

/-- caption_image from the source, over initial upload-directory contents
fs and sanitizer sf. Validation happens in source order; the staged file
is removed only inside the success branch; any raise from
generate_caption or the metadata read lands in the except clause, which
returns status 500 with the exception message and performs no cleanup. -/
def caption_image (fs : List String) (req : CaptionRequest) (sf : String → String) :
    CaptionOutcome :=
  match req.file with
  | none => ⟨400, .clientError "No file provided", fs, false, false⟩
  | some f =>
    if f.filename = "" then
      ⟨400, .clientError "No file selected", fs, false, false⟩
    else if allowed_file f.filename = false then
      ⟨400, .clientError "Invalid file type. Use JPG, PNG, WebP, or BMP", fs, false, false⟩
    else
      let style := req.style.getD "creative"
      if VALID_STYLES.contains style = false then
        ⟨400, .clientError "Invalid style. Use creative, technical, or simple", fs, false, false⟩
      else
        let filepath := joinPath UPLOAD_FOLDER (sf f.filename)
        let fs1 := saveFile fs filepath
        match generate_caption f.gen style with
        | .error e => ⟨500, .serverError e, fs1, true, true⟩
        | .ok r =>
          match f.info with
          | .error e => ⟨500, .serverError e, fs1, true, true⟩
          | .ok info =>
            ⟨200, .ok r.caption r.confidence style info, fs1.erase filepath, true, true⟩

/-- One element of the batch captions list: the success shape
`(filename, caption, confidence, success=True)` or the failure shape
`(filename, error, success=False)`. -/
inductive BatchEntry where
  | success (filename caption : String) (confidence : ℚ)
  | failure (filename errorMsg : String)
  deriving Repr, DecidableEq

/-- The captions-list entry the batch loop appends for one allowed file:
a success entry when generate_caption returns, a failure entry carrying
str(e) when it raises. -/
def entryFor (sf : String → String) (style : String) (f : UploadedFile) : BatchEntry :=
  match generate_caption f.gen style with
  | .ok r => .success (sf f.filename) r.caption r.confidence
  | .error e => .failure (sf f.filename) e

/-- The batch for-loop over `files[:10]`: disallowed filenames are
skipped with continue; otherwise the file is staged, captioned (appending
a success or failure entry), and the finally block removes the staged
path when it exists. Entries accumulate in iteration order. -/
def batchLoop (sf : String → String) (style : String) :
    List UploadedFile → List String → List BatchEntry × List String
  | [], fs => ([], fs)
  | f :: rest, fs =>
    if allowed_file f.filename then
      let filepath := joinPath UPLOAD_FOLDER (sf f.filename)
      let fs1 := removeIfExists (saveFile fs filepath) filepath
      let out := batchLoop sf style rest fs1
      (entryFor sf style f :: out.1, out.2)
    else
      batchLoop sf style rest fs

/-- Input to the /batch-caption handler: the files list and the optional
style form field. -/
structure BatchRequest where
  files : List UploadedFile
  style : Option String

/-- JSON body shapes the /batch-caption handler can return. -/
inductive BatchBody where
  | clientError (msg : String)
  | ok (captions : List BatchEntry) (total_processed : Nat)
  deriving Repr, DecidableEq

/-- Observable outcome of one /batch-caption request. -/
structure BatchOutcome where
  status : Nat
  body : BatchBody
  fs : List String

/-- batch_caption from the source: 400 when the files list is empty;
otherwise the style field is read without validation and the loop runs
over the first ten files, returning the accumulated entries with
`total_processed = len(results)`. -/
def batch_caption (fs : List String) (req : BatchRequest) (sf : String → String) :
    BatchOutcome :=
  if req.files.isEmpty then ⟨400, .clientError "No files provided", fs⟩
  else
    let style := req.style.getD "creative"
    let out := batchLoop sf style (req.files.take 10) fs
    ⟨200, .ok out.1 out.1.length, out.2⟩

/-- The global model slots and device probe read by /health. -/
structure ModelState where
  clip_model : Option Unit
  gpt2_model : Option Unit
  cuda_available : Bool

/-- JSON body returned by /health. -/
structure HealthBody where
  status : String
  message : String
  models_loaded : Bool
  device : String
  deriving Repr, DecidableEq

/-- health_check from the source: jsonify with default status 200. -/
def health_check (ms : ModelState) : Nat × HealthBody :=
  (200,
   ⟨"healthy",
    "Image Captioning API is running",
    ms.clip_model.isSome && ms.gpt2_model.isSome,
    if ms.cuda_available then "cuda" else "cpu"⟩)

/-! Concrete fixtures used to evaluate the definitions on explicit inputs. -/

/-- A well-behaved png upload: decode succeeds, GPT-2 decodes to a fixed
string, torch.rand sample one half. -/
def fileA : UploadedFile :=
  ⟨"a.png", ⟨.ok (), fun _ => .ok "A cat", 1/2⟩, .ok ⟨640, 480, some "PNG"⟩⟩

/-- A jpg upload whose image decode raises with message boom. -/
def fileBad : UploadedFile :=
  ⟨"b.jpg", ⟨.error "boom", fun _ => .ok "A cat", 0⟩, .ok ⟨1, 1, some "JPEG"⟩⟩

/-- A gif upload: its extension is not in the allow-list. -/
def fileGif : UploadedFile :=
  ⟨"c.gif", ⟨.ok (), fun _ => .ok "A dog", 0⟩, .ok ⟨1, 1, some "GIF"⟩⟩

/-- A png upload whose GPT-2 decode step raises. -/
def fileGen2 : UploadedFile :=
  ⟨"d.png", ⟨.ok (), fun _ => .error "bad decode", 0⟩, .ok ⟨1, 1, some "PNG"⟩⟩

/-- Eleven uploads, the first ten with allowed extensions, one of them
failing during generation. -/
def files11 : List UploadedFile :=
  [fileA, fileBad, fileA, fileA, fileA, fileA, fileA, fileA, fileA, fileA, fileA]

/-! Helper lemmas shared by the claim theorems. -/

/-- Appending a period makes pyEndsWith hold. -/
theorem pyEndsWith_append_period (s : String) : pyEndsWith (s ++ ".") "." = true := by
  have h : (".".data) <:+ (s ++ ".").data := by
    rw [String.data_append]
    exact List.suffix_append s.data ".".data
  unfold pyEndsWith
  rw [List.isSuffixOf_iff_suffix]
  exact h

/-- Appending a period yields a non-empty string. -/
theorem append_period_ne_empty (s : String) : s ++ "." ≠ "" := by
  intro h
  have h2 : (s ++ ".").data = "".data := by rw [h]
  rw [String.data_append] at h2
  have h3 : ".".data = ['.'] := rfl
  rw [h3] at h2
  simp at h2

/-- The cleaned caption is non-empty and period-terminated. -/
theorem clean_caption_spec (raw : String) :
    clean_caption raw ≠ "" ∧ pyEndsWith (clean_caption raw) "." = true := by
  unfold clean_caption
  by_cases h : pyEndsWith (pyStrip raw) "." = true
  · rw [if_pos h]
    refine ⟨?_, h⟩
    intro hempty
    rw [hempty] at h
    exact absurd h (by decide)
  · rw [if_neg h]
    exact ⟨append_period_ne_empty (pyStrip raw), pyEndsWith_append_period (pyStrip raw)⟩

/-- The placeholder confidence lies in the advertised bounds. -/
theorem confidenceOf_bounds (r : ℚ) (h : 0 ≤ r) :
    85/100 ≤ confidenceOf r ∧ confidenceOf r ≤ 95/100 := by
  constructor
  · apply le_min
    · nlinarith
    · norm_num
  · exact min_le_right _ _

/-- A non-nil list is not isEmpty. -/
theorem isEmpty_false_of_ne_nil {α : Type} {l : List α} (h : l ≠ []) :
    l.isEmpty = false := by
  cases l with
  | nil => exact absurd rfl h
  | cons a t => rfl

/-- The entries accumulated by the batch loop are exactly one entry per
allowed file, in iteration order. -/
theorem batchLoop_entries (sf : String → String) (style : String)
    (files : List UploadedFile) :
    ∀ fs, (batchLoop sf style files fs).1 =
      (files.filter fun f => allowed_file f.filename).map (entryFor sf style) := by
  induction files with
  | nil => intro fs; simp [batchLoop]
  | cons f rest ih =>
    intro fs
    by_cases h : allowed_file f.filename = true
    · simp [batchLoop, h, ih]
    · simp [batchLoop, h, ih]

/-- Staging a file and then removing it leaves no new path behind. -/
theorem stage_cleanup_subset (fs : List String) (p : String) :
    removeIfExists (saveFile fs p) p ⊆ fs := by
  by_cases h : p ∈ fs
  · rw [saveFile, if_pos h, removeIfExists, if_pos h]
    exact fun a ha => List.mem_of_mem_erase ha
  · rw [saveFile, if_neg h, removeIfExists, if_pos (List.mem_cons_self p fs),
      List.erase_cons_head]
    exact fun a ha => ha

/-- Every path existing after the batch loop already existed before it:
all staged temporary files are removed. -/
theorem batchLoop_fs_subset (sf : String → String) (style : String)
    (files : List UploadedFile) :
    ∀ fs, (batchLoop sf style files fs).2 ⊆ fs := by
  induction files with
  | nil => intro fs; simp [batchLoop]
  | cons f rest ih =>
    intro fs
    by_cases h : allowed_file f.filename = true
    · have h1 := ih (removeIfExists
        (saveFile fs (joinPath UPLOAD_FOLDER (sf f.filename)))
        (joinPath UPLOAD_FOLDER (sf f.filename)))
      have h2 := stage_cleanup_subset fs (joinPath UPLOAD_FOLDER (sf f.filename))
      simp only [batchLoop, h, if_true]
      exact h1.trans h2
    · simp only [batchLoop]
      rw [if_neg h]
      exact ih fs

/-- Status and body of a non-empty batch request, characterized. -/
theorem batch_caption_body (fs : List String) (req : BatchRequest)
    (sf : String → String) (h : req.files ≠ []) :
    (batch_caption fs req sf).status = 200 ∧
    (batch_caption fs req sf).body =
      .ok (((req.files.take 10).filter fun f => allowed_file f.filename).map
            (entryFor sf (req.style.getD "creative")))
          (((req.files.take 10).filter fun f => allowed_file f.filename).length) := by
  have hne := isEmpty_false_of_ne_nil h
  unfold batch_caption
  rw [hne]
  simp [batchLoop_entries]

/-- The creative prompt lookup. -/
theorem promptFor_creative : promptFor "creative" = "A beautiful image showing" := by
  decide

/-- A string absent from VALID_STYLES is beq-distinct from every member. -/
theorem contains_beq_false {style s : String} (hs : VALID_STYLES.contains s = true)
    (h : VALID_STYLES.contains style = false) : (style == s) = false := by
  cases hb : style == s with
  | false => rfl
  | true =>
    have he : style = s := eq_of_beq hb
    rw [he] at h
    rw [h] at hs
    exact Bool.noConfusion hs

/-- The style_prompts dictionary lookup with default: an unknown style
falls back to the creative seed phrase. -/
theorem promptFor_unknown (style : String) (h : VALID_STYLES.contains style = false) :
    promptFor style = "A beautiful image showing" := by
  have b1 : (style == "creative") = false := contains_beq_false (by decide) h
  have b2 : (style == "technical") = false := contains_beq_false (by decide) h
  have b3 : (style == "simple") = false := contains_beq_false (by decide) h
  simp [promptFor, style_prompts, List.lookup, b1, b2, b3]

/-- The generator treats an unknown style exactly like creative. -/
theorem generate_caption_default (env : GenEnv) (style : String)
    (h : VALID_STYLES.contains style = false) :
    generate_caption env style = generate_caption env "creative" := by
  unfold generate_caption
  rw [promptFor_unknown style h, promptFor_creative]

/-- Batch entries for an unknown style equal the creative ones. -/
theorem entryFor_default (sf : String → String) (style : String)
    (h : VALID_STYLES.contains style = false) (f : UploadedFile) :
    entryFor sf style f = entryFor sf "creative" f := by
  unfold entryFor
  rw [generate_caption_default f.gen style h]

/-- The whole batch loop for an unknown style equals the creative one. -/
theorem batchLoop_default (sf : String → String) (style : String)
    (h : VALID_STYLES.contains style = false) (files : List UploadedFile) :
    ∀ fs, batchLoop sf style files fs = batchLoop sf "creative" files fs := by
  induction files with
  | nil => intro fs; rfl
  | cons f rest ih =>
    intro fs
    simp only [batchLoop]
    by_cases hf : allowed_file f.filename = true
    · rw [if_pos hf, if_pos hf, ih, entryFor_default sf style h f]
    · rw [if_neg hf, if_neg hf]
      exact ih fs

/-- A /batch-caption request with an unknown style behaves exactly as the
same request with style creative. -/
theorem batch_caption_default (fs : List String) (files : List UploadedFile)
    (sf : String → String) (style : String)
    (h : VALID_STYLES.contains style = false) :
    batch_caption fs ⟨files, some style⟩ sf =
      batch_caption fs ⟨files, some "creative"⟩ sf := by
  unfold batch_caption
  by_cases he : files.isEmpty = true
  · rw [if_pos he, if_pos he]
  · rw [if_neg he, if_neg he]
    simp only [Option.getD_some]
    rw [batchLoop_default sf style h (files.take 10) fs]

/-- Reduction of caption_image once the request passes validation. -/
theorem caption_image_valid (fs : List String) (f : UploadedFile) (st : Option String)
    (sf : String → String) (hname : f.filename ≠ "")
    (hallow : allowed_file f.filename = true)
    (hstyle : VALID_STYLES.contains (st.getD "creative") = true) :
    caption_image fs ⟨some f, st⟩ sf =
      match generate_caption f.gen (st.getD "creative") with
      | .error e => ⟨500, .serverError e,
          saveFile fs (joinPath UPLOAD_FOLDER (sf f.filename)), true, true⟩
      | .ok r =>
        match f.info with
        | .error e => ⟨500, .serverError e,
            saveFile fs (joinPath UPLOAD_FOLDER (sf f.filename)), true, true⟩
        | .ok i => ⟨200, .ok r.caption r.confidence (st.getD "creative") i,
            (saveFile fs (joinPath UPLOAD_FOLDER (sf f.filename))).erase
              (joinPath UPLOAD_FOLDER (sf f.filename)), true, true⟩ := by
  simp only [caption_image]
  rw [if_neg hname, if_neg (by simp [hallow]), if_neg (by rw [hstyle]; simp)]

/-- The path just staged is present in the upload directory. -/
theorem mem_saveFile_self (fs : List String) (p : String) : p ∈ saveFile fs p := by
  unfold saveFile
  by_cases h : p ∈ fs
  · rw [if_pos h]; exact h
  · rw [if_neg h]; exact List.mem_cons_self p fs

/-- Staging a fresh path and erasing it restores the directory. -/
theorem erase_saveFile_fresh (fs : List String) (p : String) (h : p ∉ fs) :
    (saveFile fs p).erase p = fs := by
  unfold saveFile
  rw [if_neg h, List.erase_cons_head]

/-- The torch.rand sample of the fileA fixture is nonnegative. -/
theorem fileA_rand_nonneg : 0 ≤ fileA.gen.rand := by
  show (0 : ℚ) ≤ 1/2
  norm_num

/-- Concrete confidence evaluation at sample one half. -/
theorem confidenceOf_half : confidenceOf (1/2) = 9/10 := by
  unfold confidenceOf
  rw [min_def]
  norm_num

/-- Concrete generation outcome on the fileA fixture, for every style
(the fixture decode ignores the prompt). -/
theorem generate_fileA (style : String) :
    generate_caption fileA.gen style = .ok ⟨"A cat.", 9/10⟩ := by
  have h1 : clean_caption "A cat" = "A cat." := by decide
  show Except.ok (⟨clean_caption "A cat", confidenceOf (1/2)⟩ : GenResult) =
    Except.ok (⟨"A cat.", 9/10⟩ : GenResult)
  rw [h1, confidenceOf_half]

/-! Claim theorems. -/

/-- C1: whenever generate_caption succeeds (with the torch.rand sample in
its contracted nonnegative range), the returned caption string is
non-empty and ends with a period, and the returned confidence lies in the
closed interval [0.85, 0.95]. -/
theorem C1_generate_caption_shape (env : GenEnv) (style : String) (r : GenResult)
    (hrand : 0 ≤ env.rand) (h : generate_caption env style = .ok r) :
    r.caption ≠ "" ∧ pyEndsWith r.caption "." = true ∧
      85/100 ≤ r.confidence ∧ r.confidence ≤ 95/100 := by
  unfold generate_caption at h
  cases hd : env.decodeImage with
  | error e => rw [hd] at h; cases h
  | ok u =>
    rw [hd] at h
    cases ht : env.decodeText (promptFor style) with
    | error e => rw [ht] at h; cases h
    | ok raw =>
      rw [ht] at h
      cases h
      exact ⟨(clean_caption_spec raw).1, (clean_caption_spec raw).2,
        (confidenceOf_bounds env.rand hrand).1, (confidenceOf_bounds env.rand hrand).2⟩

/-- Witness for C1 at a concrete successful generation. -/
theorem C1_witness :
    "A cat." ≠ "" ∧ pyEndsWith "A cat." "." = true ∧
      (85 : ℚ)/100 ≤ 9/10 ∧ (9 : ℚ)/10 ≤ 95/100 :=
  C1_generate_caption_shape fileA.gen "creative" ⟨"A cat.", 9/10⟩
    fileA_rand_nonneg (generate_fileA "creative")

/-- C2 counterexample: /batch-caption accepts a style form field, yet a
request with the unrecognized style whimsical is not rejected with 400; it
returns 200 and the staged file is captioned (model work happened). -/
theorem C2_counterexample :
    (batch_caption [] ⟨[fileA], some "whimsical"⟩ (fun s => s)).status = 200 ∧
    (batch_caption [] ⟨[fileA], some "whimsical"⟩ (fun s => s)).body =
      .ok [.success "a.png" "A cat." (9/10)] 1 := by
  refine ⟨rfl, ?_⟩
  have he : entryFor (fun s => s) "whimsical" fileA =
      .success "a.png" "A cat." (9/10) := by
    unfold entryFor
    rw [generate_fileA]
    rfl
  show BatchBody.ok [entryFor (fun s => s) "whimsical" fileA] 1 =
    BatchBody.ok [.success "a.png" "A cat." (9/10)] 1
  rw [he]

/-- C2 (amended): only the /caption endpoint validates the style field —
there an unrecognized style is rejected with 400 with no file saved and no
generation run and the upload directory unchanged; /batch-caption performs
no style validation and behaves exactly as with style creative, the
generator defaulting unknown styles. -/
theorem C2_style_validation (fs : List String) (sf : String → String) :
    (∀ (f : UploadedFile) (s : String), f.filename ≠ "" →
        allowed_file f.filename = true → VALID_STYLES.contains s = false →
        caption_image fs ⟨some f, some s⟩ sf =
          ⟨400, .clientError "Invalid style. Use creative, technical, or simple",
           fs, false, false⟩) ∧
    (∀ (files : List UploadedFile) (s : String), VALID_STYLES.contains s = false →
        batch_caption fs ⟨files, some s⟩ sf =
          batch_caption fs ⟨files, some "creative"⟩ sf) := by
  constructor
  · intro f s hname hallow hbad
    simp only [caption_image, Option.getD_some]
    rw [if_neg hname, if_neg (by simp [hallow]), if_pos hbad]
  · intro files s hbad
    exact batch_caption_default fs files sf s hbad

/-- Witness for C2 at concrete requests. -/
theorem C2_witness :
    caption_image [] ⟨some fileA, some "whimsical"⟩ (fun s => s) =
      ⟨400, .clientError "Invalid style. Use creative, technical, or simple",
       [], false, false⟩ ∧
    batch_caption [] ⟨[fileA], some "whimsical"⟩ (fun s => s) =
      batch_caption [] ⟨[fileA], some "creative"⟩ (fun s => s) :=
  ⟨(C2_style_validation [] (fun s => s)).1 fileA "whimsical"
      (by decide) (by decide) (by decide),
   (C2_style_validation [] (fun s => s)).2 [fileA] "whimsical" (by decide)⟩

/-- C3: with more than ten uploaded files /batch-caption behaves exactly as
on the truncated first-ten request (the rest are ignored); when all of the
first ten filenames are allowed, every one of them yields an entry
(success or failure, continuing past generation errors) and
total_processed equals 10. -/
theorem C3_batch_first_ten (fs : List String) (req : BatchRequest)
    (sf : String → String) (hlen : 10 < req.files.length)
    (hall : ∀ f ∈ req.files.take 10, allowed_file f.filename = true) :
    batch_caption fs req sf = batch_caption fs ⟨req.files.take 10, req.style⟩ sf ∧
    (batch_caption fs req sf).body =
      .ok ((req.files.take 10).map (entryFor sf (req.style.getD "creative"))) 10 := by
  have hne : req.files ≠ [] := by
    intro h; rw [h] at hlen; simp at hlen
  have hlen10 : (req.files.take 10).length = 10 := by
    rw [List.length_take]; omega
  have hfil : (req.files.take 10).filter (fun f => allowed_file f.filename) =
      req.files.take 10 := by
    apply List.filter_eq_self.mpr
    intro a ha
    exact hall a ha
  constructor
  · obtain ⟨files, st⟩ := req
    have h1 : files.isEmpty = false := isEmpty_false_of_ne_nil hne
    have h2 : (files.take 10).isEmpty = false := by
      apply isEmpty_false_of_ne_nil
      intro hnil
      rw [hnil] at hlen10
      exact absurd hlen10 (by decide)
    simp only [batch_caption, h1, h2, Bool.false_eq_true, if_false,
      List.take_take, Nat.min_self]
  · have hb := (batch_caption_body fs req sf hne).2
    rw [hfil] at hb
    rw [hb, hlen10]

/-- Witness for C3 at an eleven-file request whose second file fails
during generation. -/
theorem C3_witness :
    batch_caption [] ⟨files11, none⟩ (fun s => s) =
      batch_caption [] ⟨files11.take 10, none⟩ (fun s => s) ∧
    (batch_caption [] ⟨files11, none⟩ (fun s => s)).body =
      .ok ((files11.take 10).map (entryFor (fun s => s) "creative")) 10 :=
  C3_batch_first_ten [] ⟨files11, none⟩ (fun s => s) (by decide) (by decide)

/-- C4: within a batch of at most ten files, a file with a disallowed
extension is silently skipped — the captions list and total_processed are
those of the request without it — while the allowed files still produce
exactly one entry each, in order. -/
theorem C4_batch_skips_disallowed (fs : List String) (sf : String → String)
    (st : Option String) (pre post : List UploadedFile) (bad : UploadedFile)
    (hbad : allowed_file bad.filename = false)
    (hlen : (pre ++ bad :: post).length ≤ 10) (hne : pre ++ post ≠ []) :
    (batch_caption fs ⟨pre ++ bad :: post, st⟩ sf).body =
      (batch_caption fs ⟨pre ++ post, st⟩ sf).body ∧
    (batch_caption fs ⟨pre ++ post, st⟩ sf).body =
      .ok (((pre ++ post).filter fun f => allowed_file f.filename).map
            (entryFor sf (st.getD "creative")))
          (((pre ++ post).filter fun f => allowed_file f.filename).length) := by
  have hne1 : pre ++ bad :: post ≠ [] := by simp
  have hlen2 : (pre ++ post).length ≤ 10 := by
    rw [List.length_append] at hlen ⊢
    simp only [List.length_cons] at hlen
    omega
  have ht1 : (pre ++ bad :: post).take 10 = pre ++ bad :: post :=
    List.take_of_length_le hlen
  have ht2 : (pre ++ post).take 10 = pre ++ post := List.take_of_length_le hlen2
  have hb1 := (batch_caption_body fs ⟨pre ++ bad :: post, st⟩ sf hne1).2
  have hb2 := (batch_caption_body fs ⟨pre ++ post, st⟩ sf hne).2
  dsimp only at hb1 hb2
  rw [ht1] at hb1
  rw [ht2] at hb2
  have hfil : (pre ++ bad :: post).filter (fun f => allowed_file f.filename) =
      (pre ++ post).filter (fun f => allowed_file f.filename) := by
    simp [List.filter_append, List.filter_cons, hbad]
  constructor
  · rw [hb1, hb2, hfil]
  · exact hb2

/-- Witness for C4: a gif file between two allowed files is skipped. -/
theorem C4_witness :
    (batch_caption [] ⟨[fileA] ++ fileGif :: [fileBad], none⟩ (fun s => s)).body =
      (batch_caption [] ⟨[fileA] ++ [fileBad], none⟩ (fun s => s)).body ∧
    (batch_caption [] ⟨[fileA] ++ [fileBad], none⟩ (fun s => s)).body =
      .ok ((([fileA] ++ [fileBad]).filter fun f => allowed_file f.filename).map
            (entryFor (fun s => s) "creative"))
          ((([fileA] ++ [fileBad]).filter fun f => allowed_file f.filename).length) :=
  C4_batch_skips_disallowed [] (fun s => s) none [fileA] [fileBad] fileGif
    (by decide) (by decide) (by simp)

/-- C5: on the /caption path the staged file is removed only on the success
branch — if generate_caption or the metadata read raises, the handler
returns 500 and the staged path is still present afterwards; on full
success it returns 200 and a freshly staged path is gone. -/
theorem C5_caption_cleanup (fs : List String) (f : UploadedFile)
    (st : Option String) (sf : String → String)
    (hname : f.filename ≠ "") (hallow : allowed_file f.filename = true)
    (hstyle : VALID_STYLES.contains (st.getD "creative") = true) :
    (∀ e, generate_caption f.gen (st.getD "creative") = .error e →
        (caption_image fs ⟨some f, st⟩ sf).status = 500 ∧
        joinPath UPLOAD_FOLDER (sf f.filename) ∈ (caption_image fs ⟨some f, st⟩ sf).fs) ∧
    (∀ r e, generate_caption f.gen (st.getD "creative") = .ok r → f.info = .error e →
        (caption_image fs ⟨some f, st⟩ sf).status = 500 ∧
        joinPath UPLOAD_FOLDER (sf f.filename) ∈ (caption_image fs ⟨some f, st⟩ sf).fs) ∧
    (∀ r i, generate_caption f.gen (st.getD "creative") = .ok r → f.info = .ok i →
        joinPath UPLOAD_FOLDER (sf f.filename) ∉ fs →
        (caption_image fs ⟨some f, st⟩ sf).status = 200 ∧
        joinPath UPLOAD_FOLDER (sf f.filename) ∉ (caption_image fs ⟨some f, st⟩ sf).fs) := by
  have key := caption_image_valid fs f st sf hname hallow hstyle
  refine ⟨?_, ?_, ?_⟩
  · intro e he
    rw [key, he]
    exact ⟨rfl, mem_saveFile_self fs _⟩
  · intro r e hr he
    rw [key, hr, he]
    exact ⟨rfl, mem_saveFile_self fs _⟩
  · intro r i hr hi hfresh
    rw [key, hr, hi]
    refine ⟨rfl, ?_⟩
    show joinPath UPLOAD_FOLDER (sf f.filename) ∉
      (saveFile fs (joinPath UPLOAD_FOLDER (sf f.filename))).erase
        (joinPath UPLOAD_FOLDER (sf f.filename))
    rw [erase_saveFile_fresh fs _ hfresh]
    exact hfresh

/-- Witness for C5: a failing decode leaves the staged file behind with a
500 answer; a clean request removes it with a 200 answer. -/
theorem C5_witness :
    ((caption_image [] ⟨some fileBad, none⟩ (fun s => s)).status = 500 ∧
      joinPath UPLOAD_FOLDER "b.jpg" ∈
        (caption_image [] ⟨some fileBad, none⟩ (fun s => s)).fs) ∧
    ((caption_image [] ⟨some fileA, none⟩ (fun s => s)).status = 200 ∧
      joinPath UPLOAD_FOLDER "a.png" ∉
        (caption_image [] ⟨some fileA, none⟩ (fun s => s)).fs) :=
  ⟨(C5_caption_cleanup [] fileBad none (fun s => s)
      (by decide) (by decide) (by decide)).1
      ("Error generating caption: " ++ "boom") rfl,
   (C5_caption_cleanup [] fileA none (fun s => s)
      (by decide) (by decide) (by decide)).2.2
      ⟨"A cat.", 9/10⟩ ⟨640, 480, some "PNG"⟩ (generate_fileA _) rfl (by simp)⟩

/-- C6: on /batch-caption every staged temporary file is removed again by
the per-file finally block, whatever the generation outcomes: after the
request the upload directory holds no path that was not already there. -/
theorem C6_batch_cleanup (fs : List String) (req : BatchRequest)
    (sf : String → String) : (batch_caption fs req sf).fs ⊆ fs := by
  unfold batch_caption
  by_cases h : req.files.isEmpty = true
  · rw [if_pos h]
    exact fun a ha => ha
  · rw [if_neg h]
    exact batchLoop_fs_subset sf (req.style.getD "creative") (req.files.take 10) fs

/-- Witness for C6: a pre-existing path survives a batch request whose
staged file is cleaned up. -/
theorem C6_witness : "keep.txt" ∈ (["keep.txt"] : List String) :=
  C6_batch_cleanup ["keep.txt"] ⟨[fileA], none⟩ (fun s => s) (by decide)

/-- C7: every exception inside the decode/generation pipeline is wrapped
with the prefix Error generating caption and re-raised carrying the
underlying message, and the /caption handler translates any generation
error into a 500 response whose body carries exactly that message. -/
theorem C7_error_propagation :
    (∀ (env : GenEnv) (style e : String), env.decodeImage = .error e →
        generate_caption env style = .error ("Error generating caption: " ++ e)) ∧
    (∀ (env : GenEnv) (style e : String), env.decodeImage = .ok () →
        env.decodeText (promptFor style) = .error e →
        generate_caption env style = .error ("Error generating caption: " ++ e)) ∧
    (∀ (fs : List String) (f : UploadedFile) (st : Option String)
        (sf : String → String) (m : String),
        f.filename ≠ "" → allowed_file f.filename = true →
        VALID_STYLES.contains (st.getD "creative") = true →
        generate_caption f.gen (st.getD "creative") = .error m →
        (caption_image fs ⟨some f, st⟩ sf).status = 500 ∧
        (caption_image fs ⟨some f, st⟩ sf).body = .serverError m) := by
  refine ⟨?_, ?_, ?_⟩
  · intro env style e h
    unfold generate_caption
    rw [h]
  · intro env style e hd ht
    unfold generate_caption
    rw [hd, ht]
  · intro fs f st sf m hname hallow hstyle hm
    rw [caption_image_valid fs f st sf hname hallow hstyle, hm]
    exact ⟨rfl, rfl⟩

/-- Witness for C7 at a failing image decode, a failing text decode, and
the corresponding handler outcome. -/
theorem C7_witness :
    generate_caption fileBad.gen "creative" =
      .error ("Error generating caption: " ++ "boom") ∧
    generate_caption fileGen2.gen "creative" =
      .error ("Error generating caption: " ++ "bad decode") ∧
    ((caption_image [] ⟨some fileBad, none⟩ (fun s => s)).status = 500 ∧
      (caption_image [] ⟨some fileBad, none⟩ (fun s => s)).body =
        .serverError ("Error generating caption: " ++ "boom")) :=
  ⟨C7_error_propagation.1 fileBad.gen "creative" "boom" rfl,
   C7_error_propagation.2.1 fileGen2.gen "creative" "bad decode" rfl rfl,
   C7_error_propagation.2.2 [] fileBad none (fun s => s)
     ("Error generating caption: " ++ "boom")
     (by decide) (by decide) (by decide) rfl⟩

/-- C8: for a style outside the catalog, generate_caption primes generation
with the creative seed phrase A beautiful image showing, and the whole call
coincides with the creative-style call. -/
theorem C8_unknown_style_defaults (env : GenEnv) (style : String)
    (h : VALID_STYLES.contains style = false) :
    promptFor style = "A beautiful image showing" ∧
    generate_caption env style = generate_caption env "creative" :=
  ⟨promptFor_unknown style h, generate_caption_default env style h⟩

/-- Witness for C8 at the unknown style whimsical. -/
theorem C8_witness :
    promptFor "whimsical" = "A beautiful image showing" ∧
    generate_caption fileA.gen "whimsical" = generate_caption fileA.gen "creative" :=
  C8_unknown_style_defaults fileA.gen "whimsical" (by decide)

/-- C9: a successful /batch-caption response reports total_processed equal
to the length of its captions list, and the captions list is the entry list
of the allowed files among the first ten uploads, in upload order. -/
theorem C9_batch_count_order (fs : List String) (req : BatchRequest)
    (sf : String → String) (h : req.files ≠ []) :
    ∃ es, (batch_caption fs req sf).body = .ok es es.length ∧
      es = ((req.files.take 10).filter fun f => allowed_file f.filename).map
            (entryFor sf (req.style.getD "creative")) := by
  refine ⟨_, ?_, rfl⟩
  have hb := (batch_caption_body fs req sf h).2
  rw [hb]
  congr 1
  rw [List.length_map]

/-- Witness for C9 at a three-file request with one skipped file. -/
theorem C9_witness :
    ∃ es, (batch_caption [] ⟨[fileA, fileGif, fileBad], none⟩ (fun s => s)).body =
        .ok es es.length ∧
      es = (([fileA, fileGif, fileBad].take 10).filter fun f =>
              allowed_file f.filename).map (entryFor (fun s => s) "creative") :=
  C9_batch_count_order [] ⟨[fileA, fileGif, fileBad], none⟩ (fun s => s)
    (List.cons_ne_nil _ _)

/-- C10: /health always returns 200 with status healthy and the fixed
message Image Captioning API is running, whatever the model-load outcome,
and models_loaded is true exactly when both the vision model slot and the
language model slot are filled. -/
theorem C10_health_check (ms : ModelState) :
    (health_check ms).1 = 200 ∧
    (health_check ms).2.status = "healthy" ∧
    (health_check ms).2.message = "Image Captioning API is running" ∧
    ((health_check ms).2.models_loaded = true ↔
      ms.clip_model ≠ none ∧ ms.gpt2_model ≠ none) := by
  refine ⟨rfl, rfl, rfl, ?_⟩
  simp [health_check, Bool.and_eq_true, Option.isSome_iff_ne_none]

end CaptionBackend
